import Mathlib

/-!
Verification development for the memory-weaver emotion-environment system.

The frontend holds a four-dimensional emotion vector (joy, calm, energy,
melancholy) in React state and derives from it a background colour, an
emotion label, audio parameters, wave parameters and a particle colour.
JavaScript numbers are modelled as rationals; JS truthiness coercions
(`x || 0`, `t || 1`) are embedded explicitly.
-/

/-- A fully-populated emotion vector, as held in React state (`App.js`). -/
structure Emotion where
  joy : ℚ
  calm : ℚ
  energy : ℚ
  melancholy : ℚ
deriving DecidableEq

/-- The four named emotion dimensions. -/
inductive Dim where
  | joy
  | calm
  | energy
  | melancholy
deriving DecidableEq

/-- Value of one dimension of an emotion vector. -/
def dimVal (e : Emotion) : Dim → ℚ
  | .joy => e.joy
  | .calm => e.calm
  | .energy => e.energy
  | .melancholy => e.melancholy

/-- JS `q || 1` for a number `q`: `0` is falsy and is replaced by `1`
(`EnvironmentVisualizer.js`, `total = joy + calm + melancholy || 1`). -/
def jsOrOne (q : ℚ) : ℚ := if q = 0 then 1 else q

/-- JS `q || 0` for a number `q`: `0` is falsy and is replaced by `0`. -/
def jsNumOrZero (q : ℚ) : ℚ := if q = 0 then 0 else q

/-- JS `Math.round`: round half away from zero is half up for the
nonnegative values that occur here; modelled as `⌊q + 1/2⌋`. -/
def jsRound (q : ℚ) : ℤ := ⌊q + 1 / 2⌋

/-- Function `getBackgroundColor` from `EnvironmentVisualizer.js`: a weighted blend
of the base colours joy `[255,215,0]`, calm `[79,195,247]`,
melancholy `[156,39,176]`, divided by `joy + calm + melancholy || 1`.
The `energy` field is not read. -/
def getBackgroundColor (e : Emotion) : ℤ × ℤ × ℤ :=
  let total := jsOrOne (e.joy + e.calm + e.melancholy)
  ( jsRound ((e.joy * 255 + e.calm * 79 + e.melancholy * 156) / total)
  , jsRound ((e.joy * 215 + e.calm * 195 + e.melancholy * 39) / total)
  , jsRound ((e.joy * 0 + e.calm * 247 + e.melancholy * 176) / total) )

/-- The list `Object.entries(emotion)` in the insertion order of the state object
built in `App.js`: joy, calm, energy, melancholy. -/
def entriesOf (e : Emotion) : List (String × ℚ) :=
  [("joy", e.joy), ("calm", e.calm), ("energy", e.energy), ("melancholy", e.melancholy)]

/-- The `reduce` in `AudioEngine.js`: strict-greater fold starting from
an empty key and value -1, so the earliest entry wins exact ties. -/
def dominantEmotion (e : Emotion) : String × ℚ :=
  (entriesOf e).foldl (fun mx kv => if kv.2 > mx.2 then kv else mx) ("", -1)

/-- Stable insertion step for the JS comparator `(a, b) => b[1] - a[1]`:
an element is placed before the first strictly smaller value, after equal
ones that preceded it. -/
def insertDesc (kv : String × ℚ) : List (String × ℚ) → List (String × ℚ)
  | [] => [kv]
  | x :: xs => if x.2 > kv.2 then x :: insertDesc kv xs else kv :: x :: xs

/-- JS `Array.prototype.sort` (stable) with comparator `b[1] - a[1]`. -/
def sortDesc : List (String × ℚ) → List (String × ℚ)
  | [] => []
  | x :: xs => insertDesc x (sortDesc xs)

/-- The `combinationMap` of `getEmotionName`. -/
def combinationMap : List (String × String) :=
  [ ("joy|calm", "Happily Calm"), ("calm|joy", "Happily Calm")
  , ("joy|melancholy", "Bittersweet"), ("melancholy|joy", "Bittersweet")
  , ("calm|melancholy", "Peaceful Sadness"), ("melancholy|calm", "Peaceful Sadness") ]

/-- Function `getEmotionName` from `EnvironmentVisualizer.js`: sort the entries by
value descending; if the runner-up is within `0.3` of the leader, return a
combined label, otherwise the name of the leader. -/
def getEmotionName (e : Emotion) : String :=
  match sortDesc (entriesOf e) with
  | [] => "Neutral"
  | [first] => first.1
  | first :: second :: _ =>
    if first.2 - second.2 < 3 / 10 then
      (combinationMap.lookup (first.1 ++ "|" ++ second.1)).getD "Mixed Feeling"
    else first.1

/-- The threshold chain of the first `AudioEngine.js` version: successive
`if (dim > 0.6)` statements, so the last matching dimension in the order
joy, calm, energy, melancholy wins; default `440`/`sine`. -/
def audioParamsChain (e : Emotion) : ℚ × String :=
  let p0 : ℚ × String := (440, "sine")
  let p1 := if e.joy > 3 / 5 then ((880 : ℚ), "triangle") else p0
  let p2 := if e.calm > 3 / 5 then ((220 : ℚ), "sine") else p1
  let p3 := if e.energy > 3 / 5 then ((660 : ℚ), "square") else p2
  if e.melancholy > 3 / 5 then ((330 : ℚ), "sawtooth") else p3

/-- The `switch` of the second `AudioEngine.js` version, keyed on the
dominant emotion. -/
def audioTable : String → ℚ × String
  | "joy" => (880, "triangle")
  | "calm" => (220, "sine")
  | "energy" => (660, "square")
  | "melancholy" => (330, "sawtooth")
  | _ => (440, "sine")

/-- Audio parameters of the dominant-emotion `AudioEngine.js` version. -/
def audioParamsDominant (e : Emotion) : ℚ × String :=
  audioTable (dominantEmotion e).1

/-- The assignment `gain.gain.value = 0.05` in both `AudioEngine.js` versions: the output
volume as a function of the emotion vector. -/
def audioGain (_e : Emotion) : ℚ := 1 / 20

/-- Signature colours of the `particleColor` override branch in
`ParticleSystem.js`. -/
def signatureColor : Dim → String
  | .joy => "#FFD700"
  | .calm => "#4FC3F7"
  | .energy => "#FF6B35"
  | .melancholy => "#9C27B0"

/-- A CSS colour value: either a hex literal or an `rgb(r, g, b)` triple. -/
inductive CssColor where
  | hex (s : String)
  | rgb (r g b : ℚ)
deriving DecidableEq

/-- Red channel of the `particleColor` blend branch. -/
def blendR (e : Emotion) : ℚ := min 255 (e.joy * 255 + e.energy * 255)

/-- Green channel of the `particleColor` blend branch. -/
def blendG (e : Emotion) : ℚ := min 255 (e.joy * 215 + e.calm * 195 + e.energy * 107)

/-- Blue channel of the `particleColor` blend branch. -/
def blendB (e : Emotion) : ℚ := min 255 (e.calm * 247 + e.melancholy * 176)

/-- Function `particleColor` from `ParticleSystem.js`: signature override when a
dimension exceeds `0.6`, checked in the order joy, calm, energy,
melancholy; otherwise the continuous channel blend. -/
def particleColor (e : Emotion) : CssColor :=
  if e.joy > 3 / 5 then .hex (signatureColor .joy)
  else if e.calm > 3 / 5 then .hex (signatureColor .calm)
  else if e.energy > 3 / 5 then .hex (signatureColor .energy)
  else if e.melancholy > 3 / 5 then .hex (signatureColor .melancholy)
  else .rgb (blendR e) (blendG e) (blendB e)

/-- Spec-declared dominant emotion: argmax over the vector, exact ties
broken by the fixed priority order joy, calm, energy, melancholy. -/
def specDominant (e : Emotion) : String × ℚ :=
  if e.joy ≥ e.calm ∧ e.joy ≥ e.energy ∧ e.joy ≥ e.melancholy then ("joy", e.joy)
  else if e.calm ≥ e.energy ∧ e.calm ≥ e.melancholy then ("calm", e.calm)
  else if e.energy ≥ e.melancholy then ("energy", e.energy)
  else ("melancholy", e.melancholy)

/-- The maximum scalar of an emotion vector. -/
def maxVal (e : Emotion) : ℚ :=
  max (max (max e.joy e.calm) e.energy) e.melancholy

/-- Wave count in `animate`: `Math.floor(1 + energy * 3)`. -/
def waveCount (e : Emotion) : ℤ := ⌊(1 : ℚ) + e.energy * 3⌋

/-- Wave amplitude in `animate`: `10 + calm * 30`. -/
def waveAmplitude (e : Emotion) : ℚ := 10 + e.calm * 30

/-- Wave spatial frequency in `animate`: `0.02 + energy * 0.05`. -/
def waveFrequency (e : Emotion) : ℚ := 2 / 100 + e.energy * 5 / 100

/-- Wave speed in `animate`: `0.02 + energy * 0.08`. -/
def waveSpeed (e : Emotion) : ℚ := 2 / 100 + e.energy * 8 / 100

/-- Initial particle positions in `ParticleSystem.js`: for each of the 500
particles, three successive `Math.random()` draws give
`(r - 0.5) * 20` coordinates (stored flat with `itemSize` 3; modelled as
one triple per particle). The random stream is an explicit input. -/
def mkParticles (r : ℕ → ℚ) : List (ℚ × ℚ × ℚ) :=
  (List.range 500).map fun i =>
    ((r (3 * i) - 1 / 2) * 20, (r (3 * i + 1) - 1 / 2) * 20, (r (3 * i + 2) - 1 / 2) * 20)

/-- The rendered particle layer: tint plus initial positions, as a function
of the emotion vector and the `Math.random()` stream consumed. -/
def particleRender (e : Emotion) (r : ℕ → ℚ) : CssColor × List (ℚ × ℚ × ℚ) :=
  (particleColor e, mkParticles r)

/-- Everything in one visual/audio frame that the source computes from the
emotion vector alone. The frame time and the `Math.random()` stream are in
scope during rendering and are passed here explicitly; none of these
computations reads them. -/
def deterministicFrame (e : Emotion) (_time : ℚ) (_rand : ℕ → ℚ) :
    (ℤ × ℤ × ℤ) × String × (ℤ × ℚ × ℚ × ℚ) × (ℚ × String) × ℚ × CssColor :=
  ( getBackgroundColor e
  , getEmotionName e
  , (waveCount e, waveAmplitude e, waveFrequency e, waveSpeed e)
  , audioParamsDominant e
  , audioGain e
  , particleColor e )

/-- The clamp `Math.max(0, Math.min(1, q))` as used by the simulated detection in
`EmotionInput.js`. -/
def clamp01 (q : ℚ) : ℚ := max 0 (min 1 q)

/-- One tick of `startEmotionDetection` in `EmotionInput.js`: each
dimension moves by `(Math.random() - 0.5) * 0.1` and is clamped to
`[0, 1]`; the four random draws are an explicit input. -/
def simulatedEmotion (prev : Emotion) (r : ℕ → ℚ) : Emotion :=
  ⟨ clamp01 (prev.joy + (r 0 - 1 / 2) * (1 / 10))
  , clamp01 (prev.calm + (r 1 - 1 / 2) * (1 / 10))
  , clamp01 (prev.energy + (r 2 - 1 / 2) * (1 / 10))
  , clamp01 (prev.melancholy + (r 3 - 1 / 2) * (1 / 10)) ⟩

/-- All four scalars of a vector lie in `[0, 1]`. -/
def bounds01 (e : Emotion) : Prop :=
  0 ≤ e.joy ∧ e.joy ≤ 1 ∧ 0 ≤ e.calm ∧ e.calm ≤ 1 ∧
  0 ≤ e.energy ∧ e.energy ≤ 1 ∧ 0 ≤ e.melancholy ∧ e.melancholy ≤ 1

/-- Scalar `valence` as computed by `saveEmotion` in `api.js`:
`(joy + calm - melancholy) / 3`, with no clamping of the inputs. -/
def saveValence (e : Emotion) : ℚ := (e.joy + e.calm - e.melancholy) / 3

/-- Scalar `arousal` as computed by `saveEmotion` in `api.js`: `energy || 0`. -/
def saveArousal (e : Emotion) : ℚ := jsNumOrZero e.energy

/-- A partially-populated emotion vector as received from the UI: a
missing dimension is `none`. -/
structure EmotionPartial where
  joy : Option ℚ
  calm : Option ℚ
  energy : Option ℚ
  melancholy : Option ℚ
deriving DecidableEq

/-- JS `x || 0` where `x` may be `undefined`: missing and `0` both give
`0`. -/
def jsOrZero (o : Option ℚ) : ℚ :=
  match o with
  | none => 0
  | some q => if q = 0 then 0 else q

/-- The websocket emotion message built by `sendEmotion` in
`websocket.js`. -/
structure WsMessage where
  type : String
  session_id : String
  joy : ℚ
  calm : ℚ
  energy : ℚ
  melancholy : ℚ
  timestamp : String
deriving DecidableEq

/-- The key list of the object literal `sendEmotion` serializes. -/
def wsMessageKeys : List String :=
  ["type", "session_id", "joy", "calm", "energy", "melancholy", "timestamp"]

/-- Message construction in `sendEmotion`: every dimension is populated via
`value || 0`. -/
def sendEmotionMessage (sid : String) (d : EmotionPartial) (ts : String) : WsMessage :=
  ⟨"emotion_data", sid, jsOrZero d.joy, jsOrZero d.calm, jsOrZero d.energy,
    jsOrZero d.melancholy, ts⟩

/-- Client-side buffering state of `WebSocketService`: the in-memory
`offlineQueue`, the `offlineEmotions` localStorage entry, and the messages
transmitted on the socket so far. -/
structure WsState where
  wsOpen : Bool
  offlineQueue : List WsMessage
  storage : List WsMessage
  sent : List WsMessage
deriving DecidableEq

/-- JS `Array.prototype.slice(-n)`: the last `n` elements. -/
def takeLast (n : ℕ) (l : List WsMessage) : List WsMessage :=
  l.drop (l.length - n)

/-- Delivery step of `sendEmotion` for an already-built message: send when
the socket is open, otherwise push onto `offlineQueue` and mirror into
localStorage truncated by `slice(-100)` (`saveToLocalStorage`). -/
def sendMsgState (s : WsState) (m : WsMessage) : WsState :=
  if s.wsOpen then { s with sent := s.sent ++ [m] }
  else { s with offlineQueue := s.offlineQueue ++ [m],
                storage := takeLast 100 (s.storage ++ [m]) }

/-- A sequence of `sendEmotion` deliveries. -/
def offlineRun (s : WsState) (ms : List WsMessage) : WsState :=
  ms.foldl sendMsgState s

/-- The `while` loop of `processOfflineQueue`: shift and send until the
queue is empty (the socket stays open in this model). -/
def drainQueue (sent : List WsMessage) : List WsMessage → List WsMessage × List WsMessage
  | [] => (sent, [])
  | m :: rest => drainQueue (sent ++ [m]) rest

/-- Function `processOfflineQueue` from `websocket.js`. -/
def processOfflineQueue (s : WsState) : WsState :=
  if s.wsOpen then
    let p := drainQueue s.sent s.offlineQueue
    { s with sent := p.1, offlineQueue := p.2 }
  else s

/-- The `onopen` handler: the socket is open and the offline queue is
replayed. -/
def wsOnOpen (s : WsState) : WsState :=
  processOfflineQueue { s with wsOpen := true }

/-- Function `loadFromLocalStorage`: append the persisted messages to the queue and
clear the localStorage entry. -/
def loadFromLocalStorage (s : WsState) : WsState :=
  { s with offlineQueue := s.offlineQueue ++ s.storage, storage := [] }

/-- A page reload: a fresh `WebSocketService` (closed socket, empty queue)
sees the persisted localStorage, and module initialization calls
`loadFromLocalStorage`. Messages already transmitted stay at the server. -/
def reloadService (s : WsState) : WsState :=
  loadFromLocalStorage ⟨false, [], s.storage, s.sent⟩

/-- The record `saveOffline` in `api.js` stores: the emotion data plus
`session_id`, an ISO timestamp, and a client-generated
`id: offline_<Date.now()>`. -/
structure OfflineRecord where
  joy : ℚ
  calm : ℚ
  energy : ℚ
  melancholy : ℚ
  session_id : String
  timestamp : String
  id : String
deriving DecidableEq

/-- Function `saveOffline` from `api.js`. -/
def saveOffline (d : Emotion) (sid : String) (now : ℕ) (tsISO : String) : OfflineRecord :=
  ⟨d.joy, d.calm, d.energy, d.melancholy, sid, tsISO, "offline_" ++ toString now⟩

/-- The numeric/string fields of the `dataToSend` object that
`saveEmotion` and `syncOfflineData` POST to `/readings/`. -/
structure ApiPayload where
  session_id : String
  joy : ℚ
  sadness : ℚ
  anger : ℚ
  fear : ℚ
  surprise : ℚ
  disgust : ℚ
  valence : ℚ
  arousal : ℚ
deriving DecidableEq

/-- The key list of the `dataToSend` object literal (the last entry is the
constant `environment_data` object). -/
def apiReadingKeys : List String :=
  ["session_id", "joy", "sadness", "anger", "fear", "surprise", "disgust",
   "valence", "arousal", "environment_data"]

/-- The payload `syncOfflineData` rebuilds from a stored offline record:
the stored `id` and `timestamp` are not copied into it. -/
def syncPayload (r : OfflineRecord) : ApiPayload :=
  { session_id := r.session_id
  , joy := jsNumOrZero r.joy
  , sadness := max 0 (1 - jsNumOrZero r.calm)
  , anger := 0
  , fear := 0
  , surprise := jsNumOrZero (r.energy * (3 / 10))
  , disgust := 0
  , valence := (r.joy + jsNumOrZero r.calm - jsNumOrZero r.melancholy) / 3
  , arousal := jsNumOrZero r.energy }

/-- Modelled from the spec: the ingest boundary of the backend (its code is
not in the repository snapshot). It keeps the set of previously seen
idempotency identifiers, extracted from a payload by `f`; a payload whose
identifier was already seen is a no-op success, any other payload is
appended to the session window. -/
def ingestFold (f : ApiPayload → String) (st : List String × List ApiPayload)
    (p : ApiPayload) : List String × List ApiPayload :=
  if f p ∈ st.1 then st else (st.1 ++ [f p], st.2 ++ [p])

/-- Modelled from the spec: the session window after ingesting a list of
payloads under identifier extractor `f`. -/
def windowOf (f : ApiPayload → String) (msgs : List ApiPayload) : List ApiPayload :=
  (msgs.foldl (ingestFold f) ([], [])).2

/-- Connection-management state of `WebSocketService.connect`. -/
structure ConnState where
  hasSocket : Bool
  sockOpen : Bool
  isConnecting : Bool
  reconnectAttempts : ℕ
deriving DecidableEq

/-- The constant `this.maxReconnectAttempts = 5`. -/
def maxReconnectAttempts : ℕ := 5

/-- Function `connect()` from `websocket.js`: bail out while connecting or open,
bail out once the attempt counter reached the maximum, otherwise create a
fresh (not yet open) socket. -/
def connect (s : ConnState) : ConnState :=
  if s.isConnecting || (s.hasSocket && s.sockOpen) then s
  else if maxReconnectAttempts ≤ s.reconnectAttempts then s
  else { s with isConnecting := true, hasSocket := true, sockOpen := false }

/-- The `onopen` handler: fires only for an existing socket; resets the
attempt counter to 0. -/
def onOpenEvt (s : ConnState) : ConnState :=
  if s.hasSocket then
    { s with isConnecting := false, sockOpen := true, reconnectAttempts := 0 }
  else s

/-- The `onclose` handler: fires only for an existing socket; increments
the attempt counter (the scheduled `connect()` retry appears as a later
event of the trace). -/
def onCloseEvt (s : ConnState) : ConnState :=
  if s.hasSocket then
    { s with isConnecting := false, sockOpen := false, hasSocket := false,
             reconnectAttempts := s.reconnectAttempts + 1 }
  else s

/-- The `onerror` handler: clears the connecting flag only. -/
def onErrorEvt (s : ConnState) : ConnState :=
  { s with isConnecting := false }

/-- Events driving the connection state machine. -/
inductive WsEvent where
  | connectCall
  | opened
  | closed
  | errored
deriving DecidableEq

/-- One transition of the connection state machine. -/
def stepEvt (s : ConnState) : WsEvent → ConnState
  | .connectCall => connect s
  | .opened => onOpenEvt s
  | .closed => onCloseEvt s
  | .errored => onErrorEvt s

/-- A whole event trace. -/
def runEvts (s : ConnState) (evts : List WsEvent) : ConnState :=
  evts.foldl stepEvt s

/-! Helper lemmas. -/

theorem specDominant_val (e : Emotion) : (specDominant e).2 = maxVal e := by
  simp only [specDominant, maxVal]
  split_ifs with h1 h2 h3
  · rw [max_eq_left h1.1, max_eq_left h1.2.1, max_eq_left h1.2.2]
  · have hjc : e.joy ≤ e.calm := by
      by_contra hx
      push_neg at hx
      exact h1 ⟨hx.le, le_trans h2.1 hx.le, le_trans h2.2 hx.le⟩
    rw [max_eq_right hjc, max_eq_left h2.1, max_eq_left h2.2]
  · push_neg at h2
    have hce : e.calm ≤ e.energy := by
      by_contra hx
      push_neg at hx
      exact absurd (h2 hx.le) (by push_neg; exact le_trans h3 hx.le)
    have hje : e.joy ≤ e.energy := by
      by_contra hx
      push_neg at hx
      push_neg at h1
      have := h1 (le_trans hce hx.le) hx.le
      exact absurd this (by push_neg; exact le_trans h3 hx.le)
    rw [max_eq_right (max_le hje hce), max_eq_left h3]
  · push_neg at h1 h2 h3
    have hcm : e.calm < e.melancholy := by
      rcases le_or_lt e.energy e.calm with hh | hh
      · exact h2 hh
      · exact lt_trans hh h3
    have hjm : e.joy < e.melancholy := by
      rcases le_or_lt e.calm e.joy with hh | hh
      · rcases le_or_lt e.energy e.joy with hh2 | hh2
        · exact h1 hh hh2
        · exact lt_trans hh2 h3
      · exact lt_trans hh hcm
    rw [max_eq_right (max_le (max_le hjm.le hcm.le) h3.le)]

theorem dominant_eq_spec (e : Emotion) (h : 0 ≤ e.joy) :
    dominantEmotion e = specDominant e := by
  have h0 : (-1 : ℚ) < e.joy := by linarith
  rcases le_or_lt e.calm e.joy with hc | hc
  · rcases le_or_lt e.energy e.joy with he | he
    · rcases le_or_lt e.melancholy e.joy with hm | hm
      · simp [dominantEmotion, entriesOf, specDominant, h0, hc.not_lt, he.not_lt, hm.not_lt,
              hc, he, hm]
      · have h2 : ¬ (e.melancholy ≤ e.calm) := by push_neg; linarith
        have h3 : ¬ (e.melancholy ≤ e.energy) := by push_neg; linarith
        simp [dominantEmotion, entriesOf, specDominant, h0, hc.not_lt, he.not_lt, hm,
              hm.not_le, h2, h3]
    · rcases le_or_lt e.melancholy e.energy with hm | hm
      · have h2 : ¬ (e.energy ≤ e.calm) := by push_neg; linarith
        simp [dominantEmotion, entriesOf, specDominant, h0, hc.not_lt, he, hm.not_lt,
              he.not_le, h2, hm]
      · have h2 : ¬ (e.energy ≤ e.calm) := by push_neg; linarith
        have h3 : ¬ (e.melancholy ≤ e.calm) := by push_neg; linarith
        simp [dominantEmotion, entriesOf, specDominant, h0, hc.not_lt, he, hm,
              he.not_le, hm.not_le, h2, h3]
  · rcases le_or_lt e.energy e.calm with he | he
    · rcases le_or_lt e.melancholy e.calm with hm | hm
      · simp [dominantEmotion, entriesOf, specDominant, h0, hc, he.not_lt, hm.not_lt,
              hc.not_le, he, hm]
      · have h3 : ¬ (e.melancholy ≤ e.energy) := by push_neg; linarith
        simp [dominantEmotion, entriesOf, specDominant, h0, hc, he.not_lt, hm,
              hc.not_le, hm.not_le, h3]
    · rcases le_or_lt e.melancholy e.energy with hm | hm
      · simp [dominantEmotion, entriesOf, specDominant, h0, hc, he, hm.not_lt,
              hc.not_le, he.not_le, hm]
      · simp [dominantEmotion, entriesOf, specDominant, h0, hc, he, hm,
              hc.not_le, he.not_le, hm.not_le]

theorem abs_min_sub_min (a x y : ℚ) : |min a x - min a y| ≤ |x - y| := by
  simp only [min_def]
  split_ifs with h1 h2 h2 <;> rw [abs_sub_le_iff] <;> constructor <;>
    linarith [le_abs_self (x - y), le_abs_self (y - x), abs_sub_comm x y,
      abs_nonneg (x - y)]

/-! Claim theorems. -/

/-- C1 (counterexample): the rendered particle layer is not a function of
the emotion vector alone: at the fixed default vector, two different
`Math.random()` streams give different particle positions, so the visual
output is not bit-identical across evaluations (the jitter is unseeded). -/
theorem particle_render_not_deterministic :
    particleRender ⟨1/2, 1/2, 1/2, 1/2⟩ (fun _ => 0) ≠
      particleRender ⟨1/2, 1/2, 1/2, 1/2⟩ (fun _ => 1/2) := by
  intro hcontra
  have h2 := congrArg (fun p => p.2.head?) hcontra
  simp only [particleRender, mkParticles] at h2
  rw [show List.range 500 = 0 :: (List.range 499).map Nat.succ from List.range_succ_eq_map 499] at h2
  simp only [List.map_cons, List.head?_cons, Option.some.injEq, Prod.mk.injEq] at h2
  have h3 := h2.1
  norm_num at h3

/-- C1 (amended): every frame-level output the source derives from the
emotion vector — background colour, emotion label, wave parameters, audio
parameters, gain, particle tint — ignores the frame time and the random
stream, so these are pure in the emotion vector; only the random wave
jitter and particle positions escape this. -/
theorem env_outputs_ignore_time_and_rand :
    ∀ (e : Emotion) (t1 t2 : ℚ) (r1 r2 : ℕ → ℚ),
      deterministicFrame e t1 r1 = deterministicFrame e t2 r2 :=
  fun _ _ _ _ _ => rfl

/-- C2: whenever some dimension exceeds the 0.6 threshold, the particle
colour is the signature colour of an exceeding dimension (not the blend);
and the scenario vector joy 0.9, calm 0.1, energy 0.8, melancholy 0 gets
the joy signature gold. -/
theorem particle_color_signature_override :
    (∀ e : Emotion, (∃ d, dimVal e d > 3 / 5) →
        ∃ d, dimVal e d > 3 / 5 ∧ particleColor e = CssColor.hex (signatureColor d)) ∧
    particleColor ⟨9/10, 1/10, 4/5, 0⟩ = CssColor.hex "#FFD700" := by
  constructor
  · intro e hex0
    by_cases hj : e.joy > 3 / 5
    · exact ⟨.joy, hj, by simp [particleColor, hj]⟩
    by_cases hc : e.calm > 3 / 5
    · exact ⟨.calm, hc, by simp [particleColor, hj, hc]⟩
    by_cases he : e.energy > 3 / 5
    · exact ⟨.energy, he, by simp [particleColor, hj, hc, he]⟩
    by_cases hm : e.melancholy > 3 / 5
    · exact ⟨.melancholy, hm, by simp [particleColor, hj, hc, he, hm]⟩
    · obtain ⟨d, hd⟩ := hex0
      cases d <;> simp only [dimVal] at hd
      · exact absurd hd hj
      · exact absurd hd hc
      · exact absurd hd he
      · exact absurd hd hm
  · rw [particleColor]
    norm_num [signatureColor]

/-- C2 witness: the scenario vector has an exceeding dimension and gets a
signature colour. -/
theorem particle_color_signature_override_witness :
    ∃ d, dimVal ⟨9/10, 1/10, 4/5, 0⟩ d > 3 / 5 ∧
      particleColor ⟨9/10, 1/10, 4/5, 0⟩ = CssColor.hex (signatureColor d) :=
  particle_color_signature_override.1 ⟨9/10, 1/10, 4/5, 0⟩
    ⟨Dim.joy, by norm_num [dimVal]⟩

/-- C3 (counterexample): at the exact tie joy = calm = 1 the
`AudioEngine.js` reduce names joy dominant, but `getEmotionName` in
`EnvironmentVisualizer.js` returns the combined label instead of the
dominant dimension, so one consistent rule is not applied everywhere. -/
theorem emotion_name_diverges_from_dominant :
    (dominantEmotion ⟨1, 1, 0, 0⟩).1 = "joy" ∧
    getEmotionName ⟨1, 1, 0, 0⟩ = "Happily Calm" ∧
    getEmotionName ⟨1, 1, 0, 0⟩ ≠ (dominantEmotion ⟨1, 1, 0, 0⟩).1 := by
  refine ⟨?_, ?_, ?_⟩
  · norm_num [dominantEmotion, entriesOf]
  · norm_num [getEmotionName, sortDesc, entriesOf, insertDesc]
    decide
  · norm_num [getEmotionName, sortDesc, entriesOf, insertDesc, dominantEmotion]
    decide

/-- C3 (amended): the `AudioEngine.js` reduce computes the argmax with
exact ties broken by the fixed entry order joy, calm, energy, melancholy,
and its value — the intensity — is the maximum scalar. -/
theorem dominant_emotion_argmax_priority :
    ∀ e : Emotion, 0 ≤ e.joy →
      dominantEmotion e = specDominant e ∧ (dominantEmotion e).2 = maxVal e := by
  intro e h
  refine ⟨dominant_eq_spec e h, ?_⟩
  rw [dominant_eq_spec e h, specDominant_val]

/-- C3 witness: the scenario vector joy 0.9, calm 0.1, energy 0.8,
melancholy 0. -/
theorem dominant_emotion_argmax_priority_witness :
    dominantEmotion ⟨9/10, 1/10, 4/5, 0⟩ = specDominant ⟨9/10, 1/10, 4/5, 0⟩ ∧
      (dominantEmotion ⟨9/10, 1/10, 4/5, 0⟩).2 = maxVal ⟨9/10, 1/10, 4/5, 0⟩ :=
  dominant_emotion_argmax_priority ⟨9/10, 1/10, 4/5, 0⟩ (by norm_num)

/-- C4 (counterexample): with joy 0.9 and melancholy 0.7 the dominant
dimension is joy, yet the threshold-chain `AudioEngine.js` version emits
the melancholy 330 Hz sawtooth, not the joy 880 Hz triangle. -/
theorem audio_chain_not_dominant_table :
    (dominantEmotion ⟨9/10, 0, 0, 7/10⟩).1 = "joy" ∧
    audioParamsChain ⟨9/10, 0, 0, 7/10⟩ = (330, "sawtooth") ∧
    audioTable "joy" = (880, "triangle") ∧
    ((330 : ℚ), "sawtooth") ≠ ((880 : ℚ), "triangle") := by
  refine ⟨?_, ?_, rfl, ?_⟩
  · norm_num [dominantEmotion, entriesOf]
  · norm_num [audioParamsChain]
  · intro hcontra
    have := congrArg Prod.fst hcontra
    norm_num at this

/-- C4 (amended): the dominant-emotion `AudioEngine.js` version follows
the documented dominant-dimension table exactly, and the gain is the fixed
constant 0.05 independent of the emotion values. -/
theorem audio_dominant_follows_table :
    ∀ e : Emotion, 0 ≤ e.joy →
      audioParamsDominant e = audioTable (specDominant e).1 ∧ audioGain e = 1 / 20 := by
  intro e h
  exact ⟨by rw [audioParamsDominant, dominant_eq_spec e h], rfl⟩

/-- C4 witness: the table at the scenario vector. -/
theorem audio_dominant_follows_table_witness :
    audioParamsDominant ⟨9/10, 1/10, 4/5, 0⟩ =
        audioTable (specDominant ⟨9/10, 1/10, 4/5, 0⟩).1 ∧
      audioGain ⟨9/10, 1/10, 4/5, 0⟩ = 1 / 20 :=
  audio_dominant_follows_table ⟨9/10, 1/10, 4/5, 0⟩ (by norm_num)

/-- C5 (counterexample): two below-threshold vectors that differ only in
energy get the same background colour — the background blend gives energy
no hue and no influence, contradicting the claim that all four dimensions
influence the blended colour. -/
theorem background_color_ignores_energy :
    getBackgroundColor ⟨1/10, 1/10, 0, 1/10⟩ = getBackgroundColor ⟨1/10, 1/10, 1/2, 1/10⟩ ∧
    (0 : ℚ) ≠ 1/2 ∧
    maxVal ⟨1/10, 1/10, 0, 1/10⟩ ≤ 3 / 5 ∧ maxVal ⟨1/10, 1/10, 1/2, 1/10⟩ ≤ 3 / 5 := by
  refine ⟨rfl, by norm_num, ?_, ?_⟩ <;> norm_num [maxVal]

/-- C5 (amended): the background blend is invariant in energy; in the
particle blend every one of the four dimensions influences the colour
(witnessed by below-threshold pairs differing in a single dimension); and
each particle blend channel is Lipschitz in the contributing dimensions,
hence continuous. -/
theorem blend_influence_and_continuity :
    (∀ (e : Emotion) (x : ℚ), getBackgroundColor { e with energy := x } = getBackgroundColor e) ∧
    (particleColor ⟨0, 0, 0, 0⟩ ≠ particleColor ⟨1/2, 0, 0, 0⟩ ∧
     particleColor ⟨0, 0, 0, 0⟩ ≠ particleColor ⟨0, 1/2, 0, 0⟩ ∧
     particleColor ⟨0, 0, 0, 0⟩ ≠ particleColor ⟨0, 0, 1/2, 0⟩ ∧
     particleColor ⟨0, 0, 0, 0⟩ ≠ particleColor ⟨0, 0, 0, 1/2⟩) ∧
    (∀ e f : Emotion,
      |blendR e - blendR f| ≤ 255 * |e.joy - f.joy| + 255 * |e.energy - f.energy| ∧
      |blendG e - blendG f| ≤
        215 * |e.joy - f.joy| + 195 * |e.calm - f.calm| + 107 * |e.energy - f.energy| ∧
      |blendB e - blendB f| ≤ 247 * |e.calm - f.calm| + 176 * |e.melancholy - f.melancholy|) := by
  refine ⟨fun e x => rfl, ⟨?_, ?_, ?_, ?_⟩, ?_⟩
  · norm_num [particleColor, blendR, blendG, blendB]
  · norm_num [particleColor, blendR, blendG, blendB]
  · norm_num [particleColor, blendR, blendG, blendB]
  · norm_num [particleColor, blendR, blendG, blendB]
  · intro e f
    refine ⟨?_, ?_, ?_⟩
    · refine le_trans (abs_min_sub_min 255 _ _) ?_
      have hre : e.joy * 255 + e.energy * 255 - (f.joy * 255 + f.energy * 255) =
          255 * (e.joy - f.joy) + 255 * (e.energy - f.energy) := by ring
      rw [hre]
      refine le_trans (abs_add _ _) ?_
      rw [abs_mul, abs_mul, show |(255 : ℚ)| = 255 by norm_num]
    · refine le_trans (abs_min_sub_min 255 _ _) ?_
      have hre : e.joy * 215 + e.calm * 195 + e.energy * 107 -
          (f.joy * 215 + f.calm * 195 + f.energy * 107) =
          (215 * (e.joy - f.joy) + 195 * (e.calm - f.calm)) + 107 * (e.energy - f.energy) := by
        ring
      rw [hre]
      calc |215 * (e.joy - f.joy) + 195 * (e.calm - f.calm) + 107 * (e.energy - f.energy)|
          ≤ |215 * (e.joy - f.joy) + 195 * (e.calm - f.calm)| + |107 * (e.energy - f.energy)| :=
            abs_add _ _
        _ ≤ |215 * (e.joy - f.joy)| + |195 * (e.calm - f.calm)| + |107 * (e.energy - f.energy)| :=
            add_le_add_right (abs_add _ _) _
        _ = 215 * |e.joy - f.joy| + 195 * |e.calm - f.calm| + 107 * |e.energy - f.energy| := by
            rw [abs_mul, abs_mul, abs_mul, show |(215 : ℚ)| = 215 by norm_num,
              show |(195 : ℚ)| = 195 by norm_num, show |(107 : ℚ)| = 107 by norm_num]
    · refine le_trans (abs_min_sub_min 255 _ _) ?_
      have hre : e.calm * 247 + e.melancholy * 176 - (f.calm * 247 + f.melancholy * 176) =
          247 * (e.calm - f.calm) + 176 * (e.melancholy - f.melancholy) := by ring
      rw [hre]
      refine le_trans (abs_add _ _) ?_
      rw [abs_mul, abs_mul, show |(247 : ℚ)| = 247 by norm_num,
        show |(176 : ℚ)| = 176 by norm_num]

theorem jsOrZero_getD (o : Option ℚ) : jsOrZero o = o.getD 0 := by
  cases o with
  | none => rfl
  | some q =>
    simp only [jsOrZero, Option.getD_some]
    split_ifs with hq
    · exact hq.symm
    · rfl

theorem drainQueue_spec (q : List WsMessage) :
    ∀ sent, drainQueue sent q = (sent ++ q, []) := by
  induction q with
  | nil => intro sent; simp [drainQueue]
  | cons m rest ih =>
    intro sent
    rw [drainQueue, ih]
    simp

theorem takeLast_le (n : ℕ) (l : List WsMessage) : (takeLast n l).length ≤ n := by
  rw [takeLast, List.length_drop]
  omega

theorem takeLast_suffix (n : ℕ) (l : List WsMessage) : takeLast n l <:+ l :=
  ⟨l.take (l.length - n), List.take_append_drop _ _⟩

theorem suffix_append_right {l1 l2 t : List WsMessage} (h : l1 <:+ l2) :
    l1 ++ t <:+ l2 ++ t := by
  obtain ⟨w, hw⟩ := h
  exact ⟨w, by rw [← List.append_assoc, hw]⟩

theorem offlineRun_props (ms : List WsMessage) :
    ∀ s : WsState, s.wsOpen = false → s.storage.length ≤ 100 →
      (offlineRun s ms).wsOpen = false ∧
      (offlineRun s ms).offlineQueue = s.offlineQueue ++ ms ∧
      (offlineRun s ms).storage.length ≤ 100 ∧
      (offlineRun s ms).storage <:+ s.storage ++ ms := by
  induction ms with
  | nil =>
    intro s h1 h2
    exact ⟨h1, by simp [offlineRun], h2, by simp [offlineRun]⟩
  | cons m rest ih =>
    intro s h1 h2
    have hstep : sendMsgState s m =
        { s with offlineQueue := s.offlineQueue ++ [m],
                 storage := takeLast 100 (s.storage ++ [m]) } := by
      simp [sendMsgState, h1]
    have hrun : offlineRun s (m :: rest) = offlineRun (sendMsgState s m) rest := by
      rw [offlineRun, List.foldl_cons]
      rfl
    obtain ⟨ih1, ih2, ih3, ih4⟩ := ih (sendMsgState s m)
      (by rw [hstep]; exact h1) (by rw [hstep]; exact takeLast_le _ _)
    refine ⟨by rw [hrun]; exact ih1, ?_, by rw [hrun]; exact ih3, ?_⟩
    · rw [hrun, ih2, hstep]
      simp
    · rw [hrun]
      refine ih4.trans ?_
      have h5 : (sendMsgState s m).storage <:+ s.storage ++ [m] := by
        rw [hstep]
        exact takeLast_suffix _ _
      have h6 := suffix_append_right (t := rest) h5
      rw [List.append_assoc] at h6
      simpa using h6

/-- A concrete websocket message for counterexamples and witnesses. -/
def msg0 : WsMessage := sendEmotionMessage "s1" ⟨some 1, some 0, some 0, some 0⟩ "t"

/-- The client state right after construction, before any connection. -/
def wsClosedInit : WsState := ⟨false, [], [], []⟩

theorem clamp01_bounds (q : ℚ) : 0 ≤ clamp01 q ∧ clamp01 q ≤ 1 :=
  ⟨le_max_left 0 _, max_le (by norm_num) (min_le_left _ _)⟩

theorem connect_noop (s : ConnState) (h1 : s.hasSocket = false)
    (h2 : maxReconnectAttempts ≤ s.reconnectAttempts) : connect s = s := by
  cases hic : s.isConnecting <;> simp [connect, h1, h2, hic]

theorem runEvts_stuck (evts : List WsEvent) :
    ∀ s : ConnState,
      maxReconnectAttempts ≤ s.reconnectAttempts → s.hasSocket = false → s.sockOpen = false →
      (runEvts s evts).hasSocket = false ∧ (runEvts s evts).sockOpen = false ∧
      (runEvts s evts).reconnectAttempts = s.reconnectAttempts := by
  induction evts with
  | nil => intro s h1 h2 h3; exact ⟨h2, h3, rfl⟩
  | cons ev rest ih =>
    intro s h1 h2 h3
    have hrun : runEvts s (ev :: rest) = runEvts (stepEvt s ev) rest := by
      rw [runEvts, List.foldl_cons]
      rfl
    rw [hrun]
    cases ev
    case connectCall =>
      rw [show stepEvt s WsEvent.connectCall = connect s from rfl, connect_noop s h2 h1]
      exact ih s h1 h2 h3
    case opened =>
      rw [show stepEvt s WsEvent.opened = s by simp [stepEvt, onOpenEvt, h2]]
      exact ih s h1 h2 h3
    case closed =>
      rw [show stepEvt s WsEvent.closed = s by simp [stepEvt, onCloseEvt, h2]]
      exact ih s h1 h2 h3
    case errored =>
      exact ih { s with isConnecting := false } h1 h2 h3

/-- C6 (counterexample): `saveEmotion` performs no clamping, so an
out-of-range raw reading (joy 3, calm 3, energy 2, melancholy 0) drives
valence to 2 (outside [-1, 1]), arousal to 2 (outside [0, 1]) and the
dominant value to 3. -/
theorem derived_scalars_unbounded_without_clamp :
    saveValence ⟨3, 3, 2, 0⟩ > 1 ∧ saveArousal ⟨3, 3, 2, 0⟩ > 1 ∧
      (dominantEmotion ⟨3, 3, 2, 0⟩).2 > 1 := by
  refine ⟨?_, ?_, ?_⟩
  · norm_num [saveValence]
  · norm_num [saveArousal, jsNumOrZero]
  · norm_num [dominantEmotion, entriesOf]

/-- C6 (amended): for vectors whose scalars already lie in [0, 1] — as the
UI sliders and the clamped simulated detection produce — valence stays in
[-1, 1], arousal in [0, 1] and the dominant value (intensity) in [0, 1];
and the simulated detection always outputs a [0, 1]-clamped vector. -/
theorem derived_scalars_bounded_on_unit_inputs :
    (∀ e : Emotion, bounds01 e →
        -1 ≤ saveValence e ∧ saveValence e ≤ 1 ∧
        0 ≤ saveArousal e ∧ saveArousal e ≤ 1 ∧
        0 ≤ (dominantEmotion e).2 ∧ (dominantEmotion e).2 ≤ 1) ∧
    (∀ (prev : Emotion) (r : ℕ → ℚ), bounds01 (simulatedEmotion prev r)) := by
  constructor
  · intro e h
    obtain ⟨h1, h2, h3, h4, h5, h6, h7, h8⟩ := h
    have hmax : (dominantEmotion e).2 = maxVal e := by
      rw [dominant_eq_spec e h1, specDominant_val]
    refine ⟨?_, ?_, ?_, ?_, ?_, ?_⟩
    · rw [saveValence]; linarith
    · rw [saveValence]; linarith
    · rw [saveArousal, jsNumOrZero]; split_ifs <;> linarith
    · rw [saveArousal, jsNumOrZero]; split_ifs <;> linarith
    · rw [hmax, maxVal]
      exact le_trans h1
        (le_trans (le_max_left _ _) (le_trans (le_max_left _ _) (le_max_left _ _)))
    · rw [hmax, maxVal]
      exact max_le (max_le (max_le h2 h4) h6) h8
  · intro prev r
    simp only [bounds01, simulatedEmotion]
    refine ⟨?_, ?_, ?_, ?_, ?_, ?_, ?_, ?_⟩ <;>
      first
        | exact (clamp01_bounds _).1
        | exact (clamp01_bounds _).2

/-- C6 witness: the in-range vector joy 0.9, calm 0.1, energy 0.8,
melancholy 0 keeps all derived scalars in bounds. -/
theorem derived_scalars_bounded_on_unit_inputs_witness :
    -1 ≤ saveValence ⟨9/10, 1/10, 4/5, 0⟩ ∧ saveValence ⟨9/10, 1/10, 4/5, 0⟩ ≤ 1 ∧
    0 ≤ saveArousal ⟨9/10, 1/10, 4/5, 0⟩ ∧ saveArousal ⟨9/10, 1/10, 4/5, 0⟩ ≤ 1 ∧
    0 ≤ (dominantEmotion ⟨9/10, 1/10, 4/5, 0⟩).2 ∧ (dominantEmotion ⟨9/10, 1/10, 4/5, 0⟩).2 ≤ 1 :=
  derived_scalars_bounded_on_unit_inputs.1 ⟨9/10, 1/10, 4/5, 0⟩ (by norm_num [bounds01])

/-- C7 (counterexample): two distinct offline readings — different
client-generated ids `offline_100`/`offline_200` and different timestamps —
are replayed as bit-identical REST payloads, and the payload carries
neither an `id` nor a `timestamp` key: the replayed reading does not carry
the client-generated idempotency identifier. -/
theorem sync_payload_drops_idempotency_id :
    (saveOffline ⟨1/2, 1/2, 1/2, 1/2⟩ "s1" 100 "t1").id ≠
        (saveOffline ⟨1/2, 1/2, 1/2, 1/2⟩ "s1" 200 "t2").id ∧
    (saveOffline ⟨1/2, 1/2, 1/2, 1/2⟩ "s1" 100 "t1").timestamp ≠
        (saveOffline ⟨1/2, 1/2, 1/2, 1/2⟩ "s1" 200 "t2").timestamp ∧
    syncPayload (saveOffline ⟨1/2, 1/2, 1/2, 1/2⟩ "s1" 100 "t1") =
        syncPayload (saveOffline ⟨1/2, 1/2, 1/2, 1/2⟩ "s1" 200 "t2") ∧
    "id" ∉ apiReadingKeys := by
  refine ⟨by decide, by decide, rfl, by decide⟩

/-- C7 (amended): `saveOffline` does attach a client-generated id and a
local timestamp, but the replay payload omits both; any two stored
readings with equal emotion values and session id replay as equal
payloads, so no identifier extracted from the payload can distinguish a
replay from a distinct reading; an identifier-keyed ingest therefore
collapses equal payloads (submitting the same payload twice yields a
one-element window). -/
theorem replay_payload_identity :
    (∀ (d : Emotion) (sid : String) (now : ℕ) (ts : String),
        (saveOffline d sid now ts).id = "offline_" ++ toString now ∧
        (saveOffline d sid now ts).timestamp = ts) ∧
    ("id" ∉ apiReadingKeys ∧ "timestamp" ∉ apiReadingKeys) ∧
    (∀ r1 r2 : OfflineRecord, r1.joy = r2.joy → r1.calm = r2.calm →
        r1.energy = r2.energy → r1.melancholy = r2.melancholy →
        r1.session_id = r2.session_id → syncPayload r1 = syncPayload r2) ∧
    (∀ (f : ApiPayload → String) (p : ApiPayload), windowOf f [p, p] = [p]) := by
  refine ⟨fun d sid now ts => ⟨rfl, rfl⟩, by decide, ?_, ?_⟩
  · intro r1 r2 h1 h2 h3 h4 h5
    simp [syncPayload, h1, h2, h3, h4, h5]
  · intro f p
    simp [windowOf, ingestFold]

/-- C7 witness: two concrete stored readings with different ids replay as
the same payload. -/
theorem replay_payload_identity_witness :
    syncPayload (saveOffline ⟨1/2, 1/2, 1/2, 1/2⟩ "s1" 100 "t1") =
      syncPayload (saveOffline ⟨1/2, 1/2, 1/2, 1/2⟩ "s1" 200 "t2") :=
  replay_payload_identity.2.2.1 _ _ rfl rfl rfl rfl rfl

/-- C8 (counterexample): 101 sends while disconnected leave 101 messages
in the in-memory `offlineQueue` — the pending buffer exceeds the claimed
capacity of 100. -/
theorem offline_queue_exceeds_capacity :
    (offlineRun wsClosedInit (List.replicate 101 msg0)).offlineQueue.length = 101 ∧
    ¬ (101 ≤ 100) := by
  obtain ⟨-, hq, -, -⟩ :=
    offlineRun_props (List.replicate 101 msg0) wsClosedInit rfl (by simp [wsClosedInit])
  refine ⟨?_, by norm_num⟩
  rw [hq]
  simp [wsClosedInit]

/-- C8 (amended): only the localStorage mirror is bounded: after any
sequence of offline sends it holds at most 100 messages and is a suffix of
everything buffered (newest kept, oldest evicted), while the in-memory
`offlineQueue` grows by every message with no bound. -/
theorem local_storage_buffer_bounded :
    ∀ (ms : List WsMessage) (s : WsState), s.wsOpen = false → s.storage.length ≤ 100 →
      (offlineRun s ms).storage.length ≤ 100 ∧
      (offlineRun s ms).storage <:+ s.storage ++ ms ∧
      (offlineRun s ms).offlineQueue = s.offlineQueue ++ ms := by
  intro ms s h1 h2
  obtain ⟨-, hq, hl, hs⟩ := offlineRun_props ms s h1 h2
  exact ⟨hl, hs, hq⟩

/-- C8 witness: one offline send from the initial state. -/
theorem local_storage_buffer_bounded_witness :
    (offlineRun wsClosedInit [msg0]).storage.length ≤ 100 ∧
    (offlineRun wsClosedInit [msg0]).storage <:+ wsClosedInit.storage ++ [msg0] ∧
    (offlineRun wsClosedInit [msg0]).offlineQueue = wsClosedInit.offlineQueue ++ [msg0] :=
  local_storage_buffer_bounded [msg0] wsClosedInit rfl (by simp [wsClosedInit])

/-- C9 (counterexample): the REST payload posted to `/readings/` has no
`calm`, `energy` or `melancholy` key — the four-dimensional vector is not
present as such in that outgoing message. -/
theorem api_payload_missing_dimensions :
    "calm" ∉ apiReadingKeys ∧ "energy" ∉ apiReadingKeys ∧
    "melancholy" ∉ apiReadingKeys ∧ "joy" ∈ apiReadingKeys := by
  decide

/-- C9 (amended): the websocket message always carries all four
dimensions, each missing dimension defaulting to 0 via `value || 0`. -/
theorem ws_message_defaults_missing_to_zero :
    ∀ (sid : String) (d : EmotionPartial) (ts : String),
      (sendEmotionMessage sid d ts).joy = d.joy.getD 0 ∧
      (sendEmotionMessage sid d ts).calm = d.calm.getD 0 ∧
      (sendEmotionMessage sid d ts).energy = d.energy.getD 0 ∧
      (sendEmotionMessage sid d ts).melancholy = d.melancholy.getD 0 ∧
      (sendEmotionMessage sid d ts).type = "emotion_data" ∧
      "joy" ∈ wsMessageKeys ∧ "calm" ∈ wsMessageKeys ∧
      "energy" ∈ wsMessageKeys ∧ "melancholy" ∈ wsMessageKeys := by
  intro sid d ts
  exact ⟨jsOrZero_getD _, jsOrZero_getD _, jsOrZero_getD _, jsOrZero_getD _, rfl,
    by decide, by decide, by decide, by decide⟩

/-- C10: once the attempt counter has reached `maxReconnectAttempts` with
no socket, no event trace ever creates a socket or changes the counter
again; the counter is incremented by every close, reset to 0 only by
`onopen`, and left unchanged by `connect` and `onerror`. -/
theorem reconnect_cap_permanent :
    (∀ (s : ConnState) (evts : List WsEvent),
        maxReconnectAttempts ≤ s.reconnectAttempts → s.hasSocket = false → s.sockOpen = false →
        (runEvts s evts).hasSocket = false ∧ (runEvts s evts).sockOpen = false ∧
        (runEvts s evts).reconnectAttempts = s.reconnectAttempts) ∧
    (∀ s : ConnState, s.hasSocket = true →
        (onCloseEvt s).reconnectAttempts = s.reconnectAttempts + 1 ∧
        (onOpenEvt s).reconnectAttempts = 0) ∧
    (∀ s : ConnState, (connect s).reconnectAttempts = s.reconnectAttempts ∧
        (onErrorEvt s).reconnectAttempts = s.reconnectAttempts) := by
  refine ⟨fun s evts h1 h2 h3 => runEvts_stuck evts s h1 h2 h3, ?_, ?_⟩
  · intro s h
    simp [onCloseEvt, onOpenEvt, h]
  · intro s
    constructor
    · rw [connect]; split_ifs <;> rfl
    · rfl

/-- C10 witness: from a socketless state with 5 attempts, a connect call,
an open event and a close event change nothing. -/
theorem reconnect_cap_permanent_witness :
    (runEvts ⟨false, false, false, 5⟩
        [WsEvent.connectCall, WsEvent.opened, WsEvent.closed]).hasSocket = false ∧
    (runEvts ⟨false, false, false, 5⟩
        [WsEvent.connectCall, WsEvent.opened, WsEvent.closed]).sockOpen = false ∧
    (runEvts ⟨false, false, false, 5⟩
        [WsEvent.connectCall, WsEvent.opened, WsEvent.closed]).reconnectAttempts = 5 :=
  reconnect_cap_permanent.1 ⟨false, false, false, 5⟩
    [WsEvent.connectCall, WsEvent.opened, WsEvent.closed] (Nat.le_refl 5) rfl rfl
